import Mathlib

/-!
Verification development for the Disaster-Management repository.

The repository contains two parallel backend implementations:
* an Express in-memory server (`server.ts`, the Socket.IO variant), and
* an AWS Lambda / DynamoDB variant (`lambda.ts` plus `websocket.ts`).

Both are shallowly embedded below.  JavaScript runtime values that the
handlers inspect for truthiness are modelled by `JsVal`; JS numbers are
modelled as `ℚ` with `Option ℚ` where `NaN` can arise; DynamoDB's
distinction between a missing attribute and an attribute holding `NULL`
is modelled by `Attr`.  Each handler's `Date.now()` readings within a
single invocation are modelled as one clock parameter `now`.
-/

/-- A JavaScript runtime value, as far as the handlers inspect it:
`undefined`, `null`, a (non-NaN) number, `NaN`, a string, or a boolean. -/
inductive JsVal
  | undef
  | nullv
  | num (q : ℚ)
  | nan
  | str (s : String)
  | bool (b : Bool)
deriving DecidableEq, Repr

/-- JavaScript truthiness: `undefined`, `null`, `NaN`, `0`, `""` and
`false` are falsy, everything else is truthy. -/
def JsVal.truthy : JsVal → Bool
  | .undef => false
  | .nullv => false
  | .nan => false
  | .num q => if q = 0 then false else true
  | .str s => if s = "" then false else true
  | .bool b => b

/-- Digits to a natural number, most significant first. -/
def digitsToNat (ds : List Char) : ℕ :=
  ds.foldl (fun n c => 10 * n + (c.toNat - 48)) 0

/-- The rational `n / d`, built directly as a reduced `Rat` constructor
(rather than through `Rat` division, which the kernel cannot evaluate);
`ratOfFrac_eq_div` below shows it is the ordinary quotient. -/
def ratOfFrac (n : ℤ) (d : ℕ) : ℚ :=
  let g := Nat.gcd n.natAbs d
  if h : d / g ≠ 0 ∧ (n.tdiv g).natAbs.Coprime (d / g) then
    ⟨n.tdiv g, d / g, h.1, h.2⟩
  else 0

/-- JavaScript `parseFloat`: skip leading whitespace, optional sign,
integer digits, optional `.` and fraction digits; trailing garbage is
ignored; `none` models `NaN` (no digit found at all).  The inputs that
reach this function in the embedded code are either captures of the SMS
regexes (characters `-`, digits, `.` only) or request-body strings; the
exponent/`Infinity` forms never occur there. -/
def jsParseFloat (s : String) : Option ℚ :=
  let cs := s.data.dropWhile Char.isWhitespace
  let signed : Bool × List Char :=
    match cs with
    | '-' :: rest => (true, rest)
    | '+' :: rest => (false, rest)
    | rest => (false, rest)
  let ip := signed.2.takeWhile Char.isDigit
  let afterInt := signed.2.dropWhile Char.isDigit
  let fp :=
    match afterInt with
    | '.' :: rest => rest.takeWhile Char.isDigit
    | _ => []
  if ip.isEmpty ∧ fp.isEmpty then none
  else
    let mantissa : ℕ := digitsToNat ip * 10 ^ fp.length + digitsToNat fp
    let n : ℤ := if signed.1 then -(mantissa : ℤ) else (mantissa : ℤ)
    some (ratOfFrac n (10 ^ fp.length))

/-- JavaScript `parseInt(s, 10)`: skip leading whitespace, optional sign,
leading decimal digits; `none` models `NaN`. -/
def jsParseInt (s : String) : Option ℤ :=
  let cs := s.data.dropWhile Char.isWhitespace
  let signed : Bool × List Char :=
    match cs with
    | '-' :: rest => (true, rest)
    | '+' :: rest => (false, rest)
    | rest => (false, rest)
  let ds := signed.2.takeWhile Char.isDigit
  if ds.isEmpty then none
  else some (if signed.1 then -(digitsToNat ds : ℤ) else (digitsToNat ds : ℤ))

/-- `parseFloat(String(v))` (also `parseFloat(v)`, which coerces the same
way): a number parses back to itself, a string is parsed, and
`undefined`, `null` and booleans stringify to words that parse to `NaN`. -/
def numOfJs : JsVal → Option ℚ
  | .num q => some q
  | .nan => none
  | .str s => jsParseFloat s
  | _ => none

/-- The `ReportStatus` enum of `types.ts`. -/
inductive ReportStatus
  | new
  | claimed
  | en_route
  | arrived
  | rescued
  | closed
deriving DecidableEq, Repr

/-- The runtime string value of a `ReportStatus` member. -/
def statusStr : ReportStatus → String
  | .new => "new"
  | .claimed => "claimed"
  | .en_route => "en_route"
  | .arrived => "arrived"
  | .rescued => "rescued"
  | .closed => "closed"

/-- `Object.values(ReportStatus).includes(s)` together with the member the
string denotes: `none` exactly when `s` is not a member of the enum. -/
def statusOfStr (s : String) : Option ReportStatus :=
  if s = "new" then some .new
  else if s = "claimed" then some .claimed
  else if s = "en_route" then some .en_route
  else if s = "arrived" then some .arrived
  else if s = "rescued" then some .rescued
  else if s = "closed" then some .closed
  else none

/-- The `Severity` enum of `types.ts`. -/
inductive Severity
  | low
  | medium
  | high
  | critical
deriving DecidableEq, Repr

/-- The runtime string value of a `Severity` member. -/
def severityStr : Severity → String
  | .low => "low"
  | .medium => "medium"
  | .high => "high"
  | .critical => "critical"

/-- `Object.values(Severity).includes(s)` with the denoted member. -/
def severityOfStr (s : String) : Option Severity :=
  if s = "low" then some .low
  else if s = "medium" then some .medium
  else if s = "high" then some .high
  else if s = "critical" then some .critical
  else none

/-!  SMS parser (`utils/smsParser.ts`). -/

/-- One entry of the `SMS_CODES` table; the optional TS fields
`isMedical`, `isFragile` default to `false` here because the parser only
ever reads them through `|| false`, and `peopleCount` stays optional
because the parser reads it through `|| 1`. -/
structure SMSCodeInfo where
  message : String
  severity : Severity
  isMedical : Bool := false
  isFragile : Bool := false
  peopleCount : Option ℕ := none
deriving DecidableEq, Repr

/-- The `SMS_CODES["A"]` entry, also the fallback of the compressed
format (`SMS_CODES[code] || SMS_CODES["A"]`). -/
def smsCodeA : SMSCodeInfo := { message := "Adult trapped", severity := .high }

/-- The `SMS_CODES` lookup table. -/
def SMS_CODES (code : String) : Option SMSCodeInfo :=
  if code = "A" then some smsCodeA
  else if code = "C" then some { message := "Child/Children in danger", severity := .critical, isFragile := true }
  else if code = "M" then some { message := "Medical emergency", severity := .critical, isMedical := true }
  else if code = "F" then some { message := "Fire emergency", severity := .critical }
  else if code = "W" then some { message := "Flooding/Water emergency", severity := .high }
  else if code = "B" then some { message := "Building collapse", severity := .critical }
  else if code = "E" then some { message := "Elderly person needs help", severity := .high, isFragile := true }
  else if code = "P" then some { message := "Pregnant woman needs help", severity := .critical, isMedical := true, isFragile := true }
  else if code = "I" then some { message := "Injured person", severity := .high, isMedical := true }
  else if code = "T" then some { message := "Multiple people trapped", severity := .critical, peopleCount := some 3 }
  else if code = "MC" then some { message := "Medical emergency with child", severity := .critical, isMedical := true, isFragile := true }
  else if code = "MI" then some { message := "Multiple injured", severity := .critical, isMedical := true, peopleCount := some 2 }
  else if code = "BT" then some { message := "Building collapse, people trapped", severity := .critical, peopleCount := some 3 }
  else if code = "WE" then some { message := "Flooding with elderly", severity := .critical, isFragile := true }
  else none

/-- Case-insensitive substring containment: `pat` (already lowercase)
occurs in `text` lowercased — the effect of testing a literal-alternative
regex with the `i` flag against `text`. -/
def containsTokenCI (pat : List Char) : List Char → Bool
  | [] => pat.isEmpty
  | c :: cs => pat.isPrefixOf ((c :: cs).map Char.toLower) || containsTokenCI pat cs

/-- Any of the (lowercase) literal alternatives occurs in the text. -/
def anyTokenCI (pats : List String) (text : String) : Bool :=
  pats.any fun p => containsTokenCI p.data text.data

/-- `detectSeverity` of `smsParser.ts`: three literal-alternative
regexes tried in order, defaulting to `high`. -/
def detectSeverity (text : String) : Severity :=
  if anyTokenCI ["critical", "dying", "dead", "fire", "collaps", "child", "baby", "pregnant", "heart", "breath", "bleed"] text then .critical
  else if anyTokenCI ["injur", "trapped", "flood", "water", "stuck", "help", "urgent", "emergency"] text then .high
  else if anyTokenCI ["need", "assist", "support"] text then .medium
  else .high

/-- Keywords of the `(\d+)\s*(?:people|persons|adults|children|family)`
search in `detectPeopleCount`. -/
def pcKeywords : List String :=
  ["people", "persons", "adults", "children", "family"]

/-- Try the people-count pattern anchored at the head of `cs`: one or
more digits, then whitespace, then one of the keywords
(case-insensitively). -/
def peopleNumAt (cs : List Char) : Option ℕ :=
  let ds := cs.takeWhile Char.isDigit
  if ds.isEmpty then none
  else
    let rest := (cs.dropWhile Char.isDigit).dropWhile Char.isWhitespace
    if pcKeywords.any (fun k => k.data.isPrefixOf (rest.map Char.toLower)) then
      some (digitsToNat ds)
    else none

/-- Scan left to right for the first position where the people-count
pattern matches, as `String.prototype.match` does. -/
def findPeopleNum : List Char → Option ℕ
  | [] => none
  | c :: cs =>
    match peopleNumAt (c :: cs) with
    | some n => some n
    | none => findPeopleNum cs

/-- `detectPeopleCount` of `smsParser.ts`. -/
def detectPeopleCount (text : String) : ℕ :=
  match findPeopleNum text.data with
  | some n => n
  | none =>
    if anyTokenCI ["family", "group", "multiple", "many", "several"] text then 3
    else if anyTokenCI ["couple", "two", "2"] text then 2
    else 1

/-- The result of one of the four format regexes before the final
coordinate validation; `lat`/`lng` are `parseFloat` results where `none`
models `NaN`. -/
structure RawParsed where
  lat : Option ℚ
  lng : Option ℚ
  message : String
  severity : Severity
  isMedical : Bool
  isFragile : Bool
  peopleCount : ℕ
deriving DecidableEq, Repr

/-- The `ParsedSMS` record returned by a successful `parseSMS`: after the
`isNaN` and range validation the coordinates are genuine numbers. -/
structure ParsedSMS where
  lat : ℚ
  lng : ℚ
  message : String
  severity : Severity
  isMedical : Bool
  isFragile : Bool
  peopleCount : ℕ
deriving DecidableEq, Repr

/-- Character class `[-\d.]` of the coordinate captures. -/
def isNumChar (c : Char) : Bool :=
  c.isDigit || c = '-' || c = '.'

/-- Character class `[,\s]` separating the two coordinates. -/
def isSepChar (c : Char) : Bool :=
  c = ',' || c.isWhitespace

/-- Match a literal word case-insensitively at the head, returning the
rest. -/
def ciWord : List Char → List Char → Option (List Char)
  | [], cs => some cs
  | _ :: _, [] => none
  | p :: ps, c :: cs => if c.toLower = p.toLower then ciWord ps cs else none

/-- One-or-more characters of a class at the head (`cls+`, greedy); the
adjacent classes in every regex below are disjoint, so maximal munch
coincides with the backtracking regex semantics. -/
def takeClass1 (cls : Char → Bool) (cs : List Char) : Option (List Char × List Char) :=
  let tk := cs.takeWhile cls
  if tk.isEmpty then none else some (tk, cs.dropWhile cls)

/-- `\s+` at the head. -/
def ws1 (cs : List Char) : Option (List Char) :=
  (takeClass1 Char.isWhitespace cs).map Prod.snd

/-- `[:\s]*` at the head (greedy). -/
def colonWs (cs : List Char) : List Char :=
  cs.dropWhile fun c => c = ':' || c.isWhitespace

/-- `(.*)$` — `.` does not match a newline and the match must consume the
input to its end (inputs are trimmed, so the lone
before-final-newline position of `$` never helps). -/
def restOfLine (cs : List Char) : Option (List Char) :=
  if cs.dropWhile (fun c => c ≠ '\n') = [] then some (cs.takeWhile (fun c => c ≠ '\n'))
  else none

/-- `^(?:HELP|SOS)\s+` — the shared prefix of formats 1 and 2. -/
def helpSosPrefix (cs : List Char) : Option (List Char) :=
  match ciWord "HELP".data cs with
  | some rest => ws1 rest
  | none =>
    match ciWord "SOS".data cs with
    | some rest => ws1 rest
    | none => none

/-- Format 1 of `parseSMS`:
`^(?:HELP|SOS)\s+LAT[:\s]*([-\d.]+)\s+LON[:\s]*([-\d.]+)(?:\s+MSG[:\s]*(.*))?$`
with the `i` flag. -/
def matchFull (cs : List Char) : Option RawParsed :=
  match helpSosPrefix cs with
  | none => none
  | some r1 =>
    match ciWord "LAT".data r1 with
    | none => none
    | some r2 =>
      match takeClass1 isNumChar (colonWs r2) with
      | none => none
      | some (latC, r3) =>
        match ws1 r3 with
        | none => none
        | some r4 =>
          match ciWord "LON".data r4 with
          | none => none
          | some r5 =>
            match takeClass1 isNumChar (colonWs r5) with
            | none => none
            | some (lngC, r6) =>
              let mkRes (msgCap : Option (List Char)) : RawParsed :=
                -- `fullMatch[3] || "Emergency via SMS"`: an absent or
                -- empty capture falls back to the default message.
                let msg :=
                  match msgCap with
                  | some m => if m.isEmpty then "Emergency via SMS" else String.mk m
                  | none => "Emergency via SMS"
                { lat := jsParseFloat (String.mk latC), lng := jsParseFloat (String.mk lngC),
                  message := msg, severity := .high,
                  isMedical := false, isFragile := false, peopleCount := 1 }
              match r6 with
              | [] => some (mkRes none)
              | _ =>
                match ws1 r6 with
                | none => none
                | some r7 =>
                  match ciWord "MSG".data r7 with
                  | none => none
                  | some r8 =>
                    match restOfLine (colonWs r8) with
                    | none => none
                    | some m => some (mkRes (some m))

/-- Format 2 of `parseSMS`:
`^(?:HELP|SOS)\s+([-\d.]+)[,\s]+([-\d.]+)\s*(.*)$` with the `i` flag. -/
def matchStd (cs : List Char) : Option RawParsed :=
  match helpSosPrefix cs with
  | none => none
  | some r1 =>
    match takeClass1 isNumChar r1 with
    | none => none
    | some (latC, r2) =>
      match takeClass1 isSepChar r2 with
      | none => none
      | some (_, r3) =>
        match takeClass1 isNumChar r3 with
        | none => none
        | some (lngC, r4) =>
          match restOfLine (r4.dropWhile Char.isWhitespace) with
          | none => none
          | some m =>
            -- `const msg = stdMatch[3] || ""` then `msg || "Emergency via SMS"`,
            -- with the flags and counters derived from `msg` itself.
            let msg := String.mk m
            some { lat := jsParseFloat (String.mk latC), lng := jsParseFloat (String.mk lngC),
                   message := if msg = "" then "Emergency via SMS" else msg,
                   severity := detectSeverity msg,
                   isMedical := anyTokenCI ["medical", "injur", "blood", "heart", "breath", "pain"] msg,
                   isFragile := anyTokenCI ["child", "baby", "elderly", "old", "pregnant"] msg,
                   peopleCount := detectPeopleCount msg }

/-- Format 3 of `parseSMS`:
`^H\s+([-\d.]+)\s+([-\d.]+)(?:\s+([A-Z]+))?$` with the `i` flag. -/
def matchCompressed (cs : List Char) : Option RawParsed :=
  match cs with
  | [] => none
  | c :: r0 =>
    if c.toLower ≠ 'h' then none
    else
      match ws1 r0 with
      | none => none
      | some r1 =>
        match takeClass1 isNumChar r1 with
        | none => none
        | some (latC, r2) =>
          match ws1 r2 with
          | none => none
          | some r3 =>
            match takeClass1 isNumChar r3 with
            | none => none
            | some (lngC, r4) =>
              let mkRes (codeCap : Option (List Char)) : RawParsed :=
                -- `const code = (compMatch[3] || "A").toUpperCase()`
                -- (the capture, being `[A-Z]+`, is never empty), then
                -- `SMS_CODES[code] || SMS_CODES["A"]`.
                let code :=
                  match codeCap with
                  | some k => String.mk (k.map Char.toUpper)
                  | none => "A"
                let info := (SMS_CODES code).getD smsCodeA
                { lat := jsParseFloat (String.mk latC), lng := jsParseFloat (String.mk lngC),
                  message := info.message,
                  severity := info.severity,
                  isMedical := info.isMedical,
                  isFragile := info.isFragile,
                  -- `codeInfo.peopleCount || 1`
                  peopleCount := match info.peopleCount with
                    | some n => if n = 0 then 1 else n
                    | none => 1 }
              match r4 with
              | [] => some (mkRes none)
              | _ =>
                match ws1 r4 with
                | none => none
                | some r5 =>
                  match takeClass1 Char.isAlpha r5 with
                  | none => none
                  | some (codeC, r6) =>
                    if r6 = [] then some (mkRes (some codeC)) else none

/-- Format 4 of `parseSMS`: `^([-\d.]+)[,\s]+([-\d.]+)$`. -/
def matchCoords (cs : List Char) : Option RawParsed :=
  match takeClass1 isNumChar cs with
  | none => none
  | some (latC, r1) =>
    match takeClass1 isSepChar r1 with
    | none => none
    | some (_, r2) =>
      match takeClass1 isNumChar r2 with
      | none => none
      | some (lngC, r3) =>
        if r3 = [] then
          some { lat := jsParseFloat (String.mk latC), lng := jsParseFloat (String.mk lngC),
                 message := "Emergency - location only", severity := .high,
                 isMedical := false, isFragile := false, peopleCount := 1 }
        else none

/-- `String.prototype.trim`: drop whitespace from both ends. -/
def trimChars (cs : List Char) : List Char :=
  ((cs.dropWhile Char.isWhitespace).reverse.dropWhile Char.isWhitespace).reverse

/-- `parseSMS` of `smsParser.ts`: trim, try the four formats in order,
then reject `NaN` or out-of-range coordinates. -/
def parseSMS (body : String) : Option ParsedSMS :=
  let text := trimChars body.data
  let raw :=
    match matchFull text with
    | some p => some p
    | none =>
      match matchStd text with
      | some p => some p
      | none =>
        match matchCompressed text with
        | some p => some p
        | none => matchCoords text
  match raw with
  | none => none
  | some p =>
    match p.lat, p.lng with
    | some a, some b =>
      if a < -90 ∨ a > 90 ∨ b < -180 ∨ b > 180 then none
      else some { lat := a, lng := b, message := p.message, severity := p.severity,
                  isMedical := p.isMedical, isFragile := p.isFragile,
                  peopleCount := p.peopleCount }
    | _, _ => none

/-!  Express server (`server.ts`): data model and helpers. -/

/-- `x || d` for an optional string `x` and string default `d`: both a
missing value and the empty string (falsy) give the default. -/
def orStr (x : Option String) (d : String) : String :=
  match x with
  | some s => if s = "" then d else s
  | none => d

/-- `x || null` for an optional string: the empty string collapses to
`null`. -/
def orNullStr (x : Option String) : Option String :=
  match x with
  | some s => if s = "" then none else some s
  | none => none

/-- `parseBoolean` of `utils/helpers.ts`. -/
def parseBoolean (v : JsVal) : Bool :=
  match v with
  | .bool b => b
  | .str s => s = "true"
  | _ => false

/-- `parseIntSafe` of `utils/helpers.ts`; the result is an optional
number because a `NaN` argument (`typeof NaN` is `"number"`) is returned
unchanged — `none` models `NaN`. -/
def parseIntSafe (v : JsVal) (fallback : ℚ) : Option ℚ :=
  match v with
  | .num q => some q
  | .nan => none
  | .str s =>
    match jsParseInt s with
    | some n => some (ratOfFrac n 1)
    | none => some fallback
  | _ => some fallback

/-- The `Report` record of `types.ts`, as stored by the Express server.
`lat`, `lng`, `peopleCount` use `none` for `NaN`; `batteryLevel` uses
`none` for `null` (in the code paths below a `NaN` battery level is
unreachable because the field is only parsed when truthy). -/
structure Report where
  id : String
  shortCode : String
  lat : Option ℚ
  lng : Option ℚ
  message : String
  severity : Severity
  phone : Option String
  photoUrl : Option String
  status : ReportStatus
  claimedBy : Option String
  claimedByName : Option String
  timestamp : ℕ
  lastUpdate : ℕ
  eta : Option String
  batteryLevel : Option ℚ
  isMedical : Bool
  isFragile : Bool
  peopleCount : Option ℚ
  source : String
  rawSms : Option String := none
  notes : Option String := none
deriving DecidableEq, Repr

/-- JSON value of an optional string field (`null` when missing). -/
def optStrJs (o : Option String) : JsVal :=
  match o with
  | some s => .str s
  | none => .nullv

/-- JSON value of a number field whose `none` models `NaN`. -/
def optNumJs (o : Option ℚ) : JsVal :=
  match o with
  | some q => .num q
  | none => .nan

/-- JSON value of a number field whose `none` models `null`. -/
def optNumNullJs (o : Option ℚ) : JsVal :=
  match o with
  | some q => .num q
  | none => .nullv

/-- `sanitizeReport` of `utils/helpers.ts`, rendered as the object
literal it builds: an association list of field names to values, in the
source's key order.  It copies every field of the report except `phone`
(and the fields `rawSms`, `notes`, `source` that the literal omits). -/
def sanitizeReport (r : Report) : List (String × JsVal) :=
  [("id", .str r.id),
   ("shortCode", .str r.shortCode),
   ("lat", optNumJs r.lat),
   ("lng", optNumJs r.lng),
   ("message", .str r.message),
   ("severity", .str (severityStr r.severity)),
   ("photoUrl", optStrJs r.photoUrl),
   ("status", .str (statusStr r.status)),
   ("claimedBy", optStrJs r.claimedBy),
   ("claimedByName", optStrJs r.claimedByName),
   ("timestamp", .num r.timestamp),
   ("lastUpdate", .num r.lastUpdate),
   ("eta", optStrJs r.eta),
   ("batteryLevel", optNumNullJs r.batteryLevel),
   ("isMedical", .bool r.isMedical),
   ("isFragile", .bool r.isFragile),
   ("peopleCount", optNumJs r.peopleCount)]

/-- A Socket.IO broadcast target: `io.to("rescuers")` or `io.emit`. -/
inductive WsTarget
  | rescuersRoom
  | allSockets
deriving DecidableEq, Repr

/-- A connected Socket.IO client: whether it has joined the `rescuers`
room (`rescuer:join`) and which `report:<code>` rooms it tracks
(`user:track`). -/
structure SocketClient where
  sid : String
  joinedRescuers : Bool
  tracked : List String
deriving DecidableEq, Repr

/-- Delivery semantics of the two broadcast helpers of `server.ts`:
`broadcastToAll` (`io.emit`) reaches every connected socket,
`broadcastToRescuers` (`io.to("rescuers").emit`) only the sockets that
joined the `rescuers` room. -/
def deliverExpress (t : WsTarget) (clients : List SocketClient) : List SocketClient :=
  match t with
  | .allSockets => clients
  | .rescuersRoom => clients.filter (·.joinedRescuers)

/-- The request body of `POST /api/reports` (`CreateReportRequest`);
fields the handler probes for truthiness or hands to the parse helpers
are kept as raw JS values. -/
structure CreateBody where
  lat : JsVal
  lng : JsVal
  message : Option String := none
  severity : Option String := none
  phone : Option String := none
  isMedical : JsVal := .undef
  isFragile : JsVal := .undef
  peopleCount : JsVal := .undef
  batteryLevel : JsVal := .undef
deriving DecidableEq, Repr

/-- Outcome of a create handler: the 400 rejection (nothing stored), or
the stored report. -/
inductive CreateRes
  | badRequest (error : String)
  | created (report : Report)
deriving DecidableEq, Repr

/-- A create handler invocation together with the broadcast it makes. -/
structure CreateStep where
  res : CreateRes
  emit : Option (String × WsTarget)
deriving DecidableEq, Repr

/-- The `POST /api/reports` handler of `server.ts`.  `photo` is
`req.file`'s stored filename; `id` and `shortCode` stand for the
generated `uuidv4()` and `generateShortCode()` values; `now` is the
invocation's `Date.now()`. -/
def createReportExpress (body : CreateBody) (photo : Option String)
    (id shortCode : String) (now : ℕ) : CreateStep :=
  if ¬ body.lat.truthy ∨ ¬ body.lng.truthy then
    ⟨.badRequest "Location (lat, lng) is required", none⟩
  else
    let report : Report :=
      { id := id, shortCode := shortCode,
        lat := numOfJs body.lat,
        lng := numOfJs body.lng,
        message := orStr body.message "Need help!",
        severity := (match body.severity with
          | some s => (severityOfStr s).getD .high
          | none => .high),
        phone := orNullStr body.phone,
        photoUrl := photo,
        status := .new,
        claimedBy := none,
        claimedByName := none,
        timestamp := now,
        lastUpdate := now,
        eta := none,
        batteryLevel := if body.batteryLevel.truthy then parseIntSafe body.batteryLevel 0 else none,
        isMedical := parseBoolean body.isMedical,
        isFragile := parseBoolean body.isFragile,
        peopleCount := parseIntSafe body.peopleCount 1,
        source := "web" }
    ⟨.created report, some ("report:new", .rescuersRoom)⟩

/-- REST response of the single-report mutation handlers of `server.ts`. -/
inductive ExpResp
  | notFound
  | badReq (error : String)
  | okReport (report : Report)
deriving DecidableEq, Repr

/-- One invocation of a single-report Express handler: the response, the
post-state of the report's store slot, and the broadcast it performs. -/
structure ExpStep where
  resp : ExpResp
  store : Option Report
  emit : Option (String × WsTarget)
deriving DecidableEq, Repr

/-- The `POST /api/reports/:id/claim` handler of `server.ts`: 404 when
the id is absent; 400 `Report already claimed or closed` when the status
is not `new` (nothing mutated); otherwise the claim is applied and
`report:update` is broadcast to all sockets. -/
def claimReportExpress (slot : Option Report) (rescuerId : String)
    (rescuerName eta : Option String) (now : ℕ) : ExpStep :=
  match slot with
  | none => ⟨.notFound, none, none⟩
  | some report =>
    if report.status ≠ .new then
      ⟨.badReq "Report already claimed or closed", some report, none⟩
    else
      let report' := { report with
        status := .claimed,
        claimedBy := some rescuerId,
        claimedByName := some (orStr rescuerName "Rescuer"),
        eta := orNullStr eta,
        lastUpdate := now }
      ⟨.okReport report', some report', some ("report:update", .allSockets)⟩

/-- The `PUT /api/reports/:id/status` handler of `server.ts`: 404 when
absent; 400 `Invalid status` when the body's status string is not a
member of the `ReportStatus` enum (nothing mutated); otherwise the
status is applied, truthy `eta`/`notes` overwrite the stored ones,
`lastUpdate` is refreshed and `report:update` goes to all sockets. -/
def updateStatusExpress (slot : Option Report) (status : String)
    (eta notes : Option String) (now : ℕ) : ExpStep :=
  match slot with
  | none => ⟨.notFound, none, none⟩
  | some report =>
    match statusOfStr status with
    | none => ⟨.badReq "Invalid status", some report, none⟩
    | some st =>
      let report' := { report with
        status := st,
        eta := (match orNullStr eta with
          | some e => some e
          | none => report.eta),
        notes := (match orNullStr notes with
          | some n => some n
          | none => report.notes),
        lastUpdate := now }
      ⟨.okReport report', some report', some ("report:update", .allSockets)⟩

/-- The `POST /api/reports/:id/release` handler of `server.ts`: 404 when
absent; otherwise unconditionally resets `status` to `new`, clears
`claimedBy`, `claimedByName` and `eta`, refreshes `lastUpdate`, and
broadcasts `report:update` to all sockets. -/
def releaseReportExpress (slot : Option Report) (now : ℕ) : ExpStep :=
  match slot with
  | none => ⟨.notFound, none, none⟩
  | some report =>
    let report' := { report with
      status := .new,
      claimedBy := none,
      claimedByName := none,
      eta := none,
      lastUpdate := now }
    ⟨.okReport report', some report', some ("report:update", .allSockets)⟩

/-- The `POST /api/sms/incoming` webhook of `server.ts`: a parsable body
stores a fresh report (and broadcasts `report:new` to the rescuers
room); an unparsable body stores nothing and answers with the help
text. -/
def smsIncomingExpress (bodyText from_ : String) (id shortCode : String)
    (now : ℕ) : Option Report :=
  match parseSMS bodyText with
  | none => none
  | some p =>
    some
      { id := id, shortCode := shortCode,
        lat := some p.lat,
        lng := some p.lng,
        message := p.message,
        severity := p.severity,
        phone := some from_,
        photoUrl := none,
        status := .new,
        claimedBy := none,
        claimedByName := none,
        timestamp := now,
        lastUpdate := now,
        eta := none,
        batteryLevel := none,
        isMedical := p.isMedical,
        isFragile := p.isFragile,
        peopleCount := some ((p.peopleCount : ℤ) : ℚ),
        source := "sms",
        rawSms := some bodyText }

/-!  AWS Lambda / DynamoDB variant (`lambda.ts`, `websocket.ts`). -/

/-- A DynamoDB item attribute: missing from the item, stored `NULL`, or
holding a value.  `UpdateExpression`'s `REMOVE` makes an attribute
`absent`, while a `PutCommand` with an explicit JS `null` stores
`nullv`; `attribute_not_exists` is true only for `absent`. -/
inductive Attr (α : Type)
  | absent
  | nullv
  | val (a : α)
deriving DecidableEq, Repr

/-- JS truthiness of a string-valued attribute read back from the
store. -/
def Attr.truthyStr : Attr String → Bool
  | .val s => if s = "" then false else true
  | _ => false

/-- `x || d` on a string-valued attribute. -/
def Attr.orStr (x : Attr String) (d : String) : String :=
  match x with
  | .val s => if s = "" then d else s
  | _ => d

/-- A report item of the `disaster-reports` DynamoDB table.  The Lambda
handlers never validate `status` or `severity`, so both are plain
strings there; attributes that a handler can `REMOVE` or store as `NULL`
are `Attr`s.  The inner `Option ℚ` of `batteryLevel` models a `NaN`
number value. -/
structure DynReport where
  id : String
  shortCode : String
  lat : Option ℚ
  lng : Option ℚ
  message : String
  severity : String
  status : String
  timestamp : ℕ
  lastUpdate : ℕ
  phone : Attr String
  photoUrl : Attr String
  claimedBy : Attr String
  claimedByName : Attr String
  claimedAt : Attr ℕ
  eta : Attr String
  batteryLevel : Attr (Option ℚ)
  isMedical : Bool
  isFragile : Bool
  peopleCount : Option ℚ
  source : String
deriving DecidableEq, Repr

/-- JS `parseInt(v)` for a raw body value: a number is stringified and
its leading integer part parsed (truncation toward zero for the decimal
notation at hand), a string is parsed, and any other value gives `NaN`
(`none`). -/
def jsParseIntOfVal : JsVal → Option ℚ
  | .num q => some (ratOfFrac (q.num.tdiv q.den) 1)
  | .str s =>
    match jsParseInt s with
    | some n => some (ratOfFrac n 1)
    | none => none
  | _ => none

/-- Outcome of the Lambda `POST /api/reports` handler. -/
inductive CreateLamRes
  | badRequest (error : String)
  | created (report : DynReport)
deriving DecidableEq, Repr

/-- A Lambda create invocation with the broadcast it makes; the emission
is the `(connectionType, event)` pair handed to
`broadcastToConnections`. -/
structure CreateLamStep where
  res : CreateLamRes
  emit : Option (String × String)
deriving DecidableEq, Repr

/-- The `POST /api/reports` handler of `lambda.ts`.  Destructuring
defaults (`message = "Need help!"`, `severity = "high"`) fire only for a
missing field, and the stored `severity` is the body's string,
unvalidated. -/
def createReportLambda (body : CreateBody) (id shortCode : String)
    (now : ℕ) : CreateLamStep :=
  if ¬ body.lat.truthy ∨ ¬ body.lng.truthy then
    ⟨.badRequest "Location (lat, lng) is required", none⟩
  else
    let report : DynReport :=
      { id := id, shortCode := shortCode,
        lat := numOfJs body.lat,
        lng := numOfJs body.lng,
        message := body.message.getD "Need help!",
        severity := body.severity.getD "high",
        status := "new",
        timestamp := now,
        lastUpdate := now,
        phone := (match orNullStr body.phone with
          | some s => .val s
          | none => .nullv),
        photoUrl := .nullv,
        claimedBy := .nullv,
        claimedByName := .nullv,
        claimedAt := .absent,
        eta := .nullv,
        batteryLevel := if body.batteryLevel.truthy then .val (jsParseIntOfVal body.batteryLevel) else .nullv,
        isMedical := parseBoolean body.isMedical,
        isFragile := parseBoolean body.isFragile,
        peopleCount := parseIntSafe body.peopleCount 1,
        source := "web" }
    ⟨.created report, some ("rescuer", "report:new")⟩

/-- Response of the Lambda claim handler. -/
inductive LamClaimResp
  | conflictPre (claimedBy : String) (status : String)
  | conflictRace
  | okReport (report : DynReport)
deriving DecidableEq, Repr

/-- A Lambda claim invocation: response, post-state of the item, and the
`(connectionType, event)` broadcast. -/
structure LamClaimStep where
  resp : LamClaimResp
  store : DynReport
  emit : Option (String × String)
deriving DecidableEq, Repr

/-- The `POST /api/reports/:id/claim` handler of `lambda.ts` on an
existing item (a missing id is answered 404 before this point).  The
pre-check rejects 409 when `claimedBy` is truthy, differs from the
caller and the status is neither `new` nor `closed`; otherwise the
conditional update applies the claim when `claimedBy` is absent, equals
the caller, or the status is `new`, and raises
`ConditionalCheckFailedException` (409) otherwise.  Only rescuer-type
connections are broadcast to. -/
def claimLambda (report : DynReport) (rescuerId rescuerName : String)
    (now : ℕ) : LamClaimStep :=
  if report.claimedBy.truthyStr ∧ report.claimedBy ≠ .val rescuerId ∧
      report.status ≠ "new" ∧ report.status ≠ "closed" then
    ⟨.conflictPre (report.claimedByName.orStr "Another rescuer") report.status, report, none⟩
  else if report.claimedBy = .absent ∨ report.claimedBy = .val rescuerId ∨
      report.status = "new" then
    let report' := { report with
      status := "claimed",
      claimedBy := .val rescuerId,
      claimedByName := .val rescuerName,
      claimedAt := .val now,
      lastUpdate := now }
    ⟨.okReport report', report', some ("rescuer", "report:update")⟩
  else
    ⟨.conflictRace, report, none⟩

/-- A Lambda mutation without a failure path: post-state plus the
broadcast. -/
structure LamMutStep where
  store : DynReport
  emit : Option (String × String)
deriving DecidableEq, Repr

/-- The `PUT /api/reports/:id/status` handler of `lambda.ts` on an
existing item: no validation of any kind — the body's status string is
stored as is, a truthy `eta` overwrites the stored one, `lastUpdate` is
refreshed, and the update is broadcast to rescuer-type connections. -/
def updateStatusLambda (report : DynReport) (status : String)
    (eta : Option String) (now : ℕ) : LamMutStep :=
  let report' := { report with
    status := status,
    eta := (match orNullStr eta with
      | some e => .val e
      | none => report.eta),
    lastUpdate := now }
  ⟨report', some ("rescuer", "report:update")⟩

/-- The `POST /api/reports/:id/release` handler of `lambda.ts` on an
existing item: sets `status` to `new`, refreshes `lastUpdate` and
`REMOVE`s `claimedBy`, `claimedByName`, `claimedAt`; `eta` is not
touched. -/
def releaseLambda (report : DynReport) (now : ℕ) : LamMutStep :=
  let report' := { report with
    status := "new",
    claimedBy := .absent,
    claimedByName := .absent,
    claimedAt := .absent,
    lastUpdate := now }
  ⟨report', some ("rescuer", "report:update")⟩

/-- The `POST /api/sms/incoming` webhook of `lambda.ts`: a falsy or
unparsable body stores nothing (400); otherwise a fresh report item is
stored (`none` in the result means nothing was stored). -/
def smsIncomingLambda (bodyText : Option String) (from_ : Option String)
    (id shortCode : String) (now : ℕ) : Option DynReport :=
  match orNullStr bodyText with
  | none => none
  | some body =>
    match parseSMS body with
    | none => none
    | some p =>
      some
        { id := id, shortCode := shortCode,
          lat := some p.lat,
          lng := some p.lng,
          message := if p.message = "" then "SOS via SMS" else p.message,
          severity := severityStr p.severity,
          status := "new",
          timestamp := now,
          lastUpdate := now,
          phone := (match orNullStr from_ with
            | some s => .val s
            | none => .nullv),
          photoUrl := .nullv,
          claimedBy := .nullv,
          claimedByName := .nullv,
          claimedAt := .absent,
          eta := .nullv,
          batteryLevel := .nullv,
          isMedical := p.isMedical,
          isFragile := p.isFragile,
          peopleCount := some ((if p.peopleCount = 0 then 1 else p.peopleCount : ℕ) : ℚ),
          source := "sms" }

/-- A row of the `disaster-websocket-connections` table, as written by
the `websocket.ts` handlers: `connectionType` is `unknown` on connect,
then `rescuer` (with `rescuerId`/`rescuerName`) after `rescuer:join` or
`user` (with `trackingCode`) after `user:track`. -/
structure WsConnection where
  connectionId : String
  connectionType : String
  rescuerId : Attr String := .absent
  rescuerName : Attr String := .absent
  trackingCode : Attr String := .absent
deriving DecidableEq, Repr

/-- Recipient selection of `broadcastToConnections` (`lambda.ts`) and
`broadcastToType` (`websocket.ts`): the `type-index` query returns
exactly the connections whose `connectionType` equals the requested
one. -/
def broadcastRecipients (conns : List WsConnection) (connectionType : String) :
    List WsConnection :=
  conns.filter (fun c => c.connectionType = connectionType)

/-- Insert into a list already sorted by descending `timestamp`, before
the first strictly older item (stable). -/
def insertByTimestampDesc (r : DynReport) : List DynReport → List DynReport
  | [] => [r]
  | x :: xs =>
    if r.timestamp ≥ x.timestamp then r :: x :: xs
    else x :: insertByTimestampDesc r xs

/-- `getReports` of `websocket.ts`: a full table scan sorted newest
first (`(a, b) => b.timestamp - a.timestamp`, a stable sort). -/
def getReportsWs (items : List DynReport) : List DynReport :=
  items.foldr insertByTimestampDesc []

/-- The serialized attribute set of a raw report item, as
`JSON.stringify` renders it when `websocket.ts` posts it to a
connection: absent attributes are omitted, `NULL` ones appear as
`null`.  This is the payload shape of the `reports:sync` event sent to a
rescuer on `rescuer:join` — note it is the raw item, not
`sanitizeReport` of it. -/
def dynItemFields (r : DynReport) : List (String × JsVal) :=
  [("id", .str r.id),
   ("shortCode", .str r.shortCode),
   ("lat", optNumJs r.lat),
   ("lng", optNumJs r.lng),
   ("message", .str r.message),
   ("severity", .str r.severity),
   ("status", .str r.status),
   ("timestamp", .num r.timestamp),
   ("lastUpdate", .num r.lastUpdate)] ++
  (match r.phone with
   | .absent => []
   | .nullv => [("phone", .nullv)]
   | .val s => [("phone", .str s)]) ++
  (match r.photoUrl with
   | .absent => []
   | .nullv => [("photoUrl", .nullv)]
   | .val s => [("photoUrl", .str s)]) ++
  (match r.claimedBy with
   | .absent => []
   | .nullv => [("claimedBy", .nullv)]
   | .val s => [("claimedBy", .str s)]) ++
  (match r.claimedByName with
   | .absent => []
   | .nullv => [("claimedByName", .nullv)]
   | .val s => [("claimedByName", .str s)]) ++
  (match r.claimedAt with
   | .absent => []
   | .nullv => [("claimedAt", .nullv)]
   | .val n => [("claimedAt", .num n)]) ++
  (match r.eta with
   | .absent => []
   | .nullv => [("eta", .nullv)]
   | .val s => [("eta", .str s)]) ++
  (match r.batteryLevel with
   | .absent => []
   | .nullv => [("batteryLevel", .nullv)]
   | .val q => [("batteryLevel", optNumJs q)]) ++
  [("isMedical", .bool r.isMedical),
   ("isFragile", .bool r.isFragile),
   ("peopleCount", optNumJs r.peopleCount),
   ("source", .str r.source)]

/-- The `reports:sync` payload `websocket.ts` sends to a rescuer on
`rescuer:join`: the raw scanned items, newest first, each serialized
whole. -/
def wsReportsSync (items : List DynReport) : List (List (String × JsVal)) :=
  (getReportsWs items).map dynItemFields

/-!  Concrete fixtures used by the witnesses and counterexamples. -/

/-- A minimal valid web create body. -/
def webBody : CreateBody := { lat := .num 7, lng := .num 80 }

/-- The report `createReportExpress webBody none "r1" "AB12" 100`
stores. -/
def webFresh : Report :=
  { id := "r1", shortCode := "AB12", lat := some 7, lng := some 80,
    message := "Need help!", severity := .high, phone := none,
    photoUrl := none, status := .new, claimedBy := none,
    claimedByName := none, timestamp := 100, lastUpdate := 100,
    eta := none, batteryLevel := none, isMedical := false,
    isFragile := false, peopleCount := some 1, source := "web" }

/-- The item `createReportLambda webBody "d1" "CD34" 100` stores. -/
def dNew : DynReport :=
  { id := "d1", shortCode := "CD34", lat := some 7, lng := some 80,
    message := "Need help!", severity := "high", status := "new",
    timestamp := 100, lastUpdate := 100, phone := .nullv,
    photoUrl := .nullv, claimedBy := .nullv, claimedByName := .nullv,
    claimedAt := .absent, eta := .nullv, batteryLevel := .nullv,
    isMedical := false, isFragile := false, peopleCount := some 1,
    source := "web" }

/-- A stored Express report currently claimed by rescuer `A`. -/
def rClaimed : Report :=
  { id := "r9", shortCode := "MN34", lat := some 7, lng := some 80,
    message := "Need help!", severity := .high,
    phone := some "+94771234567", photoUrl := none, status := .claimed,
    claimedBy := some "A", claimedByName := some "Ann", timestamp := 50,
    lastUpdate := 60, eta := some "10 min", batteryLevel := none,
    isMedical := false, isFragile := false, peopleCount := some 1,
    source := "web" }

/-- A fresh Express report in status `new`. -/
def rNew : Report :=
  { id := "r8", shortCode := "QR78", lat := some 7, lng := some 80,
    message := "Need help!", severity := .high, phone := none,
    photoUrl := none, status := .new, claimedBy := none,
    claimedByName := none, timestamp := 50, lastUpdate := 50,
    eta := none, batteryLevel := none, isMedical := false,
    isFragile := false, peopleCount := some 1, source := "web" }

/-- A stored Lambda item currently claimed by rescuer `A`, with an
`eta`. -/
def dClaimedA : DynReport :=
  { id := "d9", shortCode := "OP56", lat := some 7, lng := some 80,
    message := "Need help!", severity := "high", status := "claimed",
    timestamp := 50, lastUpdate := 110, phone := .val "+94771234567",
    photoUrl := .nullv, claimedBy := .val "A",
    claimedByName := .val "Ann", claimedAt := .val 110,
    eta := .val "10 min", batteryLevel := .nullv, isMedical := false,
    isFragile := false, peopleCount := some 1, source := "sms" }

/-- The Lambda item obtained from `dNew` by claim (rescuer `A`), then
release, then a status update to `closed`: a closed report whose
claimant attributes were `REMOVE`d by the release. -/
def dClosedUnclaimed : DynReport :=
  (updateStatusLambda (releaseLambda ((claimLambda dNew "A" "Ann" 110).store) 120).store
    "closed" none 130).store

/-- A create body whose latitude is the in-range number `0`. -/
def zeroLatBody : CreateBody := { lat := .num 0, lng := .num 80 }

/-- A create body whose latitude string parses to the out-of-range
`999`. -/
def outOfRangeBody : CreateBody := { lat := .str "999", lng := .str "80" }

/-- The report `createReportExpress outOfRangeBody none "r2" "EF56" 100`
stores. -/
def outOfRangeReport : Report :=
  { id := "r2", shortCode := "EF56", lat := some 999, lng := some 80,
    message := "Need help!", severity := .high, phone := none,
    photoUrl := none, status := .new, claimedBy := none,
    claimedByName := none, timestamp := 100, lastUpdate := 100,
    eta := none, batteryLevel := none, isMedical := false,
    isFragile := false, peopleCount := some 1, source := "web" }

/-- `parseSMS "SOS 6.9,79.8 help"`. -/
def smsStdParsed : ParsedSMS :=
  { lat := ratOfFrac 69 10, lng := ratOfFrac 798 10, message := "help",
    severity := .high, isMedical := false, isFragile := false,
    peopleCount := 1 }

/-- The report `smsIncomingExpress "H 7 80" "+94770000000" "r4" "IJ90" 100`
stores. -/
def smsFreshExp : Report :=
  { id := "r4", shortCode := "IJ90", lat := some 7, lng := some 80,
    message := "Adult trapped", severity := .high,
    phone := some "+94770000000", photoUrl := none, status := .new,
    claimedBy := none, claimedByName := none, timestamp := 100,
    lastUpdate := 100, eta := none, batteryLevel := none,
    isMedical := false, isFragile := false, peopleCount := some 1,
    source := "sms", rawSms := some "H 7 80" }

/-- The item `smsIncomingLambda (some "H 7 80") (some "+94770000000")
"d4" "KL12" 100` stores. -/
def smsFreshLam : DynReport :=
  { id := "d4", shortCode := "KL12", lat := some 7, lng := some 80,
    message := "Adult trapped", severity := "high", status := "new",
    timestamp := 100, lastUpdate := 100, phone := .val "+94770000000",
    photoUrl := .nullv, claimedBy := .nullv, claimedByName := .nullv,
    claimedAt := .absent, eta := .nullv, batteryLevel := .nullv,
    isMedical := false, isFragile := false, peopleCount := some 1,
    source := "sms" }

/-- A rescuer-type WebSocket connection row. -/
def rescuerConn : WsConnection :=
  { connectionId := "c1", connectionType := "rescuer",
    rescuerId := .val "A", rescuerName := .val "Ann" }

/-- A user-type WebSocket connection row tracking `dNew`'s
short code. -/
def userConn : WsConnection :=
  { connectionId := "c2", connectionType := "user",
    trackingCode := .val "CD34" }

/-!  Supporting lemmas. -/

theorem ratMkEqDiv (n : ℤ) (d : ℕ) (h1 : d ≠ 0) (h2 : n.natAbs.Coprime d) :
    (⟨n, d, h1, h2⟩ : ℚ) = (n : ℚ) / (d : ℚ) := by
  rw [Rat.mk'_eq_divInt, Rat.divInt_eq_div]
  norm_num

theorem ratOfFrac_eq_div (n : ℤ) (d : ℕ) : ratOfFrac n d = (n : ℚ) / (d : ℚ) := by
  by_cases hd : d = 0
  · subst hd
    rw [ratOfFrac, dif_neg]
    · simp
    · rintro ⟨h1, -⟩
      exact h1 (Nat.zero_div _)
  · have hdpos : 0 < d := Nat.pos_of_ne_zero hd
    rw [ratOfFrac]
    set g := Nat.gcd n.natAbs d with hgdef
    have hgpos : 0 < g := Nat.gcd_pos_of_pos_right _ hdpos
    have hgz : (g : ℤ) ≠ 0 := Int.natCast_ne_zero.mpr hgpos.ne'
    obtain ⟨m, hm⟩ : (g : ℤ) ∣ n :=
      dvd_trans (Int.natCast_dvd_natCast.mpr (Nat.gcd_dvd_left _ _)) (Int.natAbs_dvd.mpr dvd_rfl)
    obtain ⟨e, he⟩ : g ∣ d := Nat.gcd_dvd_right n.natAbs d
    have htd : n.tdiv (g : ℤ) = m := by
      rw [hm]
      exact Int.mul_tdiv_cancel_left m hgz
    have hde : d / g = e := by
      rw [he]
      exact Nat.mul_div_cancel_left e hgpos
    have hene : e ≠ 0 := by
      rintro rfl
      rw [Nat.mul_zero] at he
      exact hd he
    have hmabs : n.natAbs / g = m.natAbs := by
      rw [hm, Int.natAbs_mul, Int.natAbs_ofNat]
      exact Nat.mul_div_cancel_left _ hgpos
    have hcop : m.natAbs.Coprime e := by
      have h := Nat.coprime_div_gcd_div_gcd (m := n.natAbs) (n := d) (hgdef ▸ hgpos)
      rw [← hgdef] at h
      rwa [hmabs, hde] at h
    rw [dif_pos ⟨by rw [hde]; exact hene, by rw [htd, hde]; exact hcop⟩,
      ratMkEqDiv _ _ (by rw [hde]; exact hene) (by rw [htd, hde]; exact hcop)]
    rw [htd, hde]
    rw [show (n : ℚ) = (g : ℚ) * (m : ℚ) from by rw [hm]; push_cast; ring,
      show (d : ℚ) = (g : ℚ) * (e : ℚ) from by rw [he]; push_cast; ring]
    rw [mul_div_mul_left _ _ (by exact_mod_cast hgz : ((g : ℚ)) ≠ 0)]

/-- C9: parsing the SMS body `H 6.912 79.852 M` succeeds with
lat 6.912, lng 79.852, the medical-emergency message, severity
`critical`, `isMedical`, not `isFragile`, and one person. -/
theorem c9_sms_medical :
    parseSMS "H 6.912 79.852 M" =
      some { lat := 6.912, lng := 79.852, message := "Medical emergency",
             severity := .critical, isMedical := true, isFragile := false,
             peopleCount := 1 } := by
  have h : parseSMS "H 6.912 79.852 M" =
      some { lat := ratOfFrac 6912 1000, lng := ratOfFrac 79852 1000,
             message := "Medical emergency", severity := .critical,
             isMedical := true, isFragile := false, peopleCount := 1 } := by
    decide
  rw [h, show ratOfFrac 6912 1000 = 6.912 from by rw [ratOfFrac_eq_div]; norm_num,
    show ratOfFrac 79852 1000 = 79.852 from by rw [ratOfFrac_eq_div]; norm_num]

/-- C2: `sanitizeReport` never emits a `phone` key, for any report; but
the `reports:sync` payload that `websocket.ts` sends on `rescuer:join`
is the raw item, and it does carry the `phone` attribute whenever one is
stored — that emission point bypasses the sanitized projection. -/
theorem c2_sanitize_phone :
    (∀ r : Report, "phone" ∉ (sanitizeReport r).map Prod.fst) ∧
    wsReportsSync [dClaimedA] = [dynItemFields dClaimedA] ∧
    "phone" ∈ (dynItemFields dClaimedA).map Prod.fst := by
  refine ⟨fun r => ?_, by decide, by decide⟩
  have h : (sanitizeReport r).map Prod.fst =
      ["id", "shortCode", "lat", "lng", "message", "severity", "photoUrl",
       "status", "claimedBy", "claimedByName", "timestamp", "lastUpdate",
       "eta", "batteryLevel", "isMedical", "isFragile", "peopleCount"] := rfl
  rw [h]
  decide

/-- C4: the Express status handler rejects a status string outside the
enum with 400 `Invalid status` and leaves the report untouched, but the
Lambda status handler performs no validation at all: it stores the
bogus status and refreshes `lastUpdate`, answering 200. -/
theorem c4_status_validation :
    updateStatusExpress (some rClaimed) "bogus" none none 300 =
      ⟨.badReq "Invalid status", some rClaimed, none⟩ ∧
    (updateStatusLambda dClaimedA "bogus" none 300).store =
      { dClaimedA with status := "bogus", lastUpdate := 300 } := by
  decide

/-- C6 (amended): release always succeeds on an existing report and
resets it to an unclaimed `new` state; the Express handler also clears
`eta`, while the Lambda handler leaves `eta` exactly as it was. -/
theorem c6_release_state :
    (∀ (r : Report) (now : ℕ),
      releaseReportExpress (some r) now =
        ⟨.okReport { r with status := .new, claimedBy := none,
                            claimedByName := none, eta := none,
                            lastUpdate := now },
         some { r with status := .new, claimedBy := none,
                       claimedByName := none, eta := none,
                       lastUpdate := now },
         some ("report:update", .allSockets)⟩) ∧
    (∀ (d : DynReport) (now : ℕ),
      (releaseLambda d now).store.status = "new" ∧
      (releaseLambda d now).store.claimedBy = .absent ∧
      (releaseLambda d now).store.claimedByName = .absent ∧
      (releaseLambda d now).store.eta = d.eta) := by
  exact ⟨fun r now => rfl, fun d now => ⟨rfl, rfl, rfl, rfl⟩⟩

/-- C6 counterexample: releasing a Lambda item that carries an `eta`
leaves that `eta` in place — after the release it is neither `null` nor
removed, contradicting `R.eta == null`. -/
theorem c6_counterexample :
    (releaseLambda dClaimedA 400).store.eta = .val "10 min" ∧
    (releaseLambda dClaimedA 400).store.eta ≠ .nullv ∧
    (releaseLambda dClaimedA 400).store.eta ≠ .absent := by
  decide

/-- C7 (amended): a second release fully overwrites the first — two
releases leave exactly the state of a single release performed at the
time of the second call (so with an unchanged clock, release is
literally idempotent); `lastUpdate` always takes the clock of the last
release. -/
theorem c7_release_idem :
    (∀ (r : Report) (t1 t2 : ℕ),
      releaseReportExpress ((releaseReportExpress (some r) t1).store) t2 =
        releaseReportExpress (some r) t2) ∧
    (∀ (d : DynReport) (t1 t2 : ℕ),
      (releaseLambda (releaseLambda d t1).store t2).store =
        (releaseLambda d t2).store) := by
  exact ⟨fun r t1 t2 => rfl, fun d t1 t2 => rfl⟩

/-- C7 counterexample: released at time 0 and released again at time 1,
the stored report differs from the one left by the single release —
`lastUpdate` moves from 0 to 1, so the states are not identical field
for field. -/
theorem c7_counterexample :
    (releaseReportExpress ((releaseReportExpress (some rClaimed) 0).store) 1).store ≠
      (releaseReportExpress (some rClaimed) 0).store ∧
    Option.map Report.lastUpdate
      ((releaseReportExpress ((releaseReportExpress (some rClaimed) 0).store) 1).store) = some 1 ∧
    Option.map Report.lastUpdate ((releaseReportExpress (some rClaimed) 0).store) = some 0 := by
  decide

/-- C10: a `POST /api/reports` body whose `lat` or `lng` is the number
`0` — a present, numeric, in-range coordinate — is rejected 400
`Location (lat, lng) is required` by both the Express and the Lambda
create handler (the presence check is JS truthiness, and `0` is falsy),
and nothing is stored or broadcast. -/
theorem c10_zero_coordinate (body : CreateBody) (photo : Option String)
    (id shortCode : String) (now : ℕ)
    (h : body.lat = .num 0 ∨ body.lng = .num 0) :
    createReportExpress body photo id shortCode now =
      ⟨.badRequest "Location (lat, lng) is required", none⟩ ∧
    createReportLambda body id shortCode now =
      ⟨.badRequest "Location (lat, lng) is required", none⟩ := by
  have hcond : ¬ body.lat.truthy ∨ ¬ body.lng.truthy := by
    rcases h with h | h
    · exact Or.inl (by rw [h]; decide)
    · exact Or.inr (by rw [h]; decide)
  constructor
  · unfold createReportExpress
    rw [if_pos hcond]
  · unfold createReportLambda
    rw [if_pos hcond]

/-- C10 witness: the concrete body `lat = 0`, `lng = 80` is rejected by
both handlers. -/
theorem c10_zero_coordinate_witness :
    createReportExpress zeroLatBody none "r3" "GH78" 100 =
      ⟨.badRequest "Location (lat, lng) is required", none⟩ ∧
    createReportLambda zeroLatBody "r3" "GH78" 100 =
      ⟨.badRequest "Location (lat, lng) is required", none⟩ :=
  c10_zero_coordinate zeroLatBody none "r3" "GH78" 100 (Or.inl rfl)

/-- C3: every report stored by one of the four creation paths (Express
web create, Lambda web create, Express SMS webhook, Lambda SMS webhook)
starts with status `new`, no claimant, and `lastUpdate` equal to its
creation timestamp. -/
theorem c3_fresh_reports :
    (∀ (body : CreateBody) (photo : Option String) (id sc : String) (now : ℕ) (r : Report),
      (createReportExpress body photo id sc now).res = .created r →
        r.status = .new ∧ r.claimedBy = none ∧ r.claimedByName = none ∧
        r.lastUpdate = r.timestamp) ∧
    (∀ (body : CreateBody) (id sc : String) (now : ℕ) (d : DynReport),
      (createReportLambda body id sc now).res = .created d →
        d.status = "new" ∧ d.claimedBy = .nullv ∧ d.claimedByName = .nullv ∧
        d.lastUpdate = d.timestamp) ∧
    (∀ (b f id sc : String) (now : ℕ) (r : Report),
      smsIncomingExpress b f id sc now = some r →
        r.status = .new ∧ r.claimedBy = none ∧ r.claimedByName = none ∧
        r.lastUpdate = r.timestamp) ∧
    (∀ (b f : Option String) (id sc : String) (now : ℕ) (d : DynReport),
      smsIncomingLambda b f id sc now = some d →
        d.status = "new" ∧ d.claimedBy = .nullv ∧ d.claimedByName = .nullv ∧
        d.lastUpdate = d.timestamp) := by
  refine ⟨?_, ?_, ?_, ?_⟩
  · intro body photo id sc now r h
    unfold createReportExpress at h
    split at h
    · simp at h
    · injection h with h
      subst h
      exact ⟨rfl, rfl, rfl, rfl⟩
  · intro body id sc now d h
    unfold createReportLambda at h
    split at h
    · simp at h
    · injection h with h
      subst h
      exact ⟨rfl, rfl, rfl, rfl⟩
  · intro b f id sc now r h
    unfold smsIncomingExpress at h
    split at h
    · simp at h
    · injection h with h
      subst h
      exact ⟨rfl, rfl, rfl, rfl⟩
  · intro b f id sc now d h
    unfold smsIncomingLambda at h
    split at h
    · simp at h
    · split at h
      · simp at h
      · injection h with h
        subst h
        exact ⟨rfl, rfl, rfl, rfl⟩

/-- C3 witness: concrete fresh reports on all four creation paths. -/
theorem c3_fresh_reports_witness :
    (createReportExpress webBody none "r1" "AB12" 100).res = .created webFresh ∧
    (webFresh.status = .new ∧ webFresh.claimedBy = none ∧ webFresh.claimedByName = none ∧
      webFresh.lastUpdate = webFresh.timestamp) ∧
    (createReportLambda webBody "d1" "CD34" 100).res = .created dNew ∧
    (dNew.status = "new" ∧ dNew.claimedBy = .nullv ∧ dNew.claimedByName = .nullv ∧
      dNew.lastUpdate = dNew.timestamp) ∧
    smsIncomingExpress "H 7 80" "+94770000000" "r4" "IJ90" 100 = some smsFreshExp ∧
    (smsFreshExp.status = .new ∧ smsFreshExp.claimedBy = none ∧ smsFreshExp.claimedByName = none ∧
      smsFreshExp.lastUpdate = smsFreshExp.timestamp) ∧
    smsIncomingLambda (some "H 7 80") (some "+94770000000") "d4" "KL12" 100 = some smsFreshLam ∧
    (smsFreshLam.status = "new" ∧ smsFreshLam.claimedBy = .nullv ∧ smsFreshLam.claimedByName = .nullv ∧
      smsFreshLam.lastUpdate = smsFreshLam.timestamp) :=
  ⟨by decide,
   c3_fresh_reports.1 webBody none "r1" "AB12" 100 webFresh (by decide),
   by decide,
   c3_fresh_reports.2.1 webBody "d1" "CD34" 100 dNew (by decide),
   by decide,
   c3_fresh_reports.2.2.1 "H 7 80" "+94770000000" "r4" "IJ90" 100 smsFreshExp (by decide),
   by decide,
   c3_fresh_reports.2.2.2 (some "H 7 80") (some "+94770000000") "d4" "KL12" 100 smsFreshLam (by decide)⟩

/-- C8 (amended): every report created through the SMS webhook has
coordinates validated to lie in `[-90, 90] × [-180, 180]` (an
out-of-range or unparseable pair makes `parseSMS` return nothing, so no
report is stored); the web `POST /api/reports` handler, however, only
checks that `lat` and `lng` are truthy and stores whatever `parseFloat`
yields, with no range or NaN validation. -/
theorem c8_coordinate_validation :
    (∀ (s : String) (p : ParsedSMS), parseSMS s = some p →
      -90 ≤ p.lat ∧ p.lat ≤ 90 ∧ -180 ≤ p.lng ∧ p.lng ≤ 180) ∧
    (∀ (body : CreateBody) (photo : Option String) (id sc : String) (now : ℕ) (r : Report),
      (createReportExpress body photo id sc now).res = .created r →
        r.lat = numOfJs body.lat ∧ r.lng = numOfJs body.lng) := by
  constructor
  · intro s p h
    simp only [parseSMS] at h
    split at h
    · simp at h
    · split at h
      · split at h
        · simp at h
        · next hno =>
          push_neg at hno
          injection h with h
          subst h
          exact ⟨hno.1, hno.2.1, hno.2.2.1, hno.2.2.2⟩
      · simp at h
  · intro body photo id sc now r h
    unfold createReportExpress at h
    split at h
    · simp at h
    · injection h with h
      subst h
      exact ⟨rfl, rfl⟩

/-- C8 witness: a standard-format SMS parses with in-range coordinates,
and a web body with string latitude `999` is accepted and stored with
exactly `parseFloat`'s value. -/
theorem c8_coordinate_validation_witness :
    parseSMS "SOS 6.9,79.8 help" = some smsStdParsed ∧
    (-90 ≤ smsStdParsed.lat ∧ smsStdParsed.lat ≤ 90 ∧
      -180 ≤ smsStdParsed.lng ∧ smsStdParsed.lng ≤ 180) ∧
    (createReportExpress outOfRangeBody none "r2" "EF56" 100).res = .created outOfRangeReport ∧
    (outOfRangeReport.lat = numOfJs outOfRangeBody.lat ∧
      outOfRangeReport.lng = numOfJs outOfRangeBody.lng) :=
  ⟨by decide,
   c8_coordinate_validation.1 "SOS 6.9,79.8 help" smsStdParsed (by decide),
   by decide,
   c8_coordinate_validation.2 outOfRangeBody none "r2" "EF56" 100 outOfRangeReport (by decide)⟩

/-- C8 counterexample: the web create handler accepts `lat = "999"` and
stores a report whose latitude is 999, far outside `[-90, 90]` — the
claimed range validation does not exist on the web path. -/
theorem c8_counterexample :
    (createReportExpress outOfRangeBody none "r2" "EF56" 100).res = .created outOfRangeReport ∧
    outOfRangeReport.lat = some 999 ∧
    ¬ ((999 : ℚ) ≤ 90) := by
  decide

/-- C5 (amended): in the Express server `report:new` is emitted to the
`rescuers` room only (sockets that joined as rescuers) and
`report:update` — on claim, status update and release — is emitted by
`io.emit` to every connected socket, including user sockets tracking the
report; in the Lambda deployment every report broadcast, `report:new`
and `report:update` alike, is handed to `broadcastToConnections` with
connection type `rescuer`, whose recipients are exactly the connections
of that type — user-type connections receive nothing. -/
theorem c5_broadcast_targets :
    (∀ clients : List SocketClient, deliverExpress .allSockets clients = clients) ∧
    (∀ clients : List SocketClient,
      deliverExpress .rescuersRoom clients = clients.filter (·.joinedRescuers)) ∧
    (∀ (body : CreateBody) (photo : Option String) (id sc : String) (now : ℕ),
      (createReportExpress body photo id sc now).emit = none ∨
      (createReportExpress body photo id sc now).emit = some ("report:new", .rescuersRoom)) ∧
    (∀ (slot : Option Report) (rid : String) (rname eta : Option String) (now : ℕ),
      (claimReportExpress slot rid rname eta now).emit = none ∨
      (claimReportExpress slot rid rname eta now).emit = some ("report:update", .allSockets)) ∧
    (∀ (slot : Option Report) (st : String) (eta notes : Option String) (now : ℕ),
      (updateStatusExpress slot st eta notes now).emit = none ∨
      (updateStatusExpress slot st eta notes now).emit = some ("report:update", .allSockets)) ∧
    (∀ (slot : Option Report) (now : ℕ),
      (releaseReportExpress slot now).emit = none ∨
      (releaseReportExpress slot now).emit = some ("report:update", .allSockets)) ∧
    (∀ (d : DynReport) (rid rname : String) (now : ℕ),
      (claimLambda d rid rname now).emit = none ∨
      (claimLambda d rid rname now).emit = some ("rescuer", "report:update")) ∧
    (∀ (d : DynReport) (st : String) (eta : Option String) (now : ℕ),
      (updateStatusLambda d st eta now).emit = some ("rescuer", "report:update")) ∧
    (∀ (d : DynReport) (now : ℕ),
      (releaseLambda d now).emit = some ("rescuer", "report:update")) ∧
    (∀ (conns : List WsConnection) (ct : String) (c : WsConnection),
      c ∈ broadcastRecipients conns ct ↔ c ∈ conns ∧ c.connectionType = ct) := by
  refine ⟨fun clients => rfl, fun clients => rfl, ?_, ?_, ?_, ?_, ?_,
    fun d st eta now => rfl, fun d now => rfl, ?_⟩
  · intro body photo id sc now
    by_cases hc : ¬ body.lat.truthy ∨ ¬ body.lng.truthy
    · exact Or.inl (by unfold createReportExpress; rw [if_pos hc])
    · exact Or.inr (by unfold createReportExpress; rw [if_neg hc])
  · intro slot rid rname eta now
    match slot with
    | none => exact Or.inl rfl
    | some r =>
      by_cases hs : r.status ≠ ReportStatus.new
      · exact Or.inl (by simp only [claimReportExpress]; rw [if_pos hs])
      · exact Or.inr (by simp only [claimReportExpress]; rw [if_neg hs])
  · intro slot st eta notes now
    match slot with
    | none => exact Or.inl rfl
    | some r =>
      match hso : statusOfStr st with
      | none => exact Or.inl (by simp only [updateStatusExpress, hso])
      | some st' => exact Or.inr (by simp only [updateStatusExpress, hso])
  · intro slot now
    match slot with
    | none => exact Or.inl rfl
    | some r => exact Or.inr rfl
  · intro d rid rname now
    by_cases h1 : d.claimedBy.truthyStr ∧ d.claimedBy ≠ .val rid ∧
        d.status ≠ "new" ∧ d.status ≠ "closed"
    · exact Or.inl (by unfold claimLambda; rw [if_pos h1])
    · by_cases h2 : d.claimedBy = .absent ∨ d.claimedBy = .val rid ∨ d.status = "new"
      · exact Or.inr (by unfold claimLambda; rw [if_neg h1, if_pos h2])
      · exact Or.inl (by unfold claimLambda; rw [if_neg h1, if_neg h2])
  · intro conns ct c
    simp only [broadcastRecipients, List.mem_filter, decide_eq_true_eq]

/-- C5 counterexample: a claim in the Lambda deployment broadcasts
`report:update` to connection type `rescuer`; with a rescuer connection
and a user connection tracking the report's short code registered, the
recipient set is the rescuer connection alone — the tracking user
connection is not a recipient, contradicting delivery to all
connections. -/
theorem c5_counterexample :
    (claimLambda dNew "A" "Ann" 110).emit = some ("rescuer", "report:update") ∧
    dNew.shortCode = "CD34" ∧
    userConn.connectionType = "user" ∧
    userConn.trackingCode = .val "CD34" ∧
    broadcastRecipients [rescuerConn, userConn] "rescuer" = [rescuerConn] ∧
    userConn ∉ broadcastRecipients [rescuerConn, userConn] "rescuer" := by
  decide

/-- C1 (amended): a claim on a report whose status is not `new` by a
different rescuer fails and leaves the stored report unchanged, with no
broadcast, provided the stored claimant is a non-empty string (Express:
400 `Report already claimed or closed` for any claimant; Lambda: 409).
The Express handler succeeds exactly when the status is `new`, and on
success sets `status=claimed`, `claimedBy`/`claimedByName`, `eta` and
bumps `lastUpdate`.  The Lambda handler instead succeeds precisely when
`claimedBy` is absent, or equals the requesting rescuer, or the status
is `new` — so a claim can also succeed on a report whose status is not
`new`. -/
theorem c1_claim_policy :
    (∀ (r : Report) (rid : String) (rname eta : Option String) (now : ℕ),
      r.status ≠ .new →
        claimReportExpress (some r) rid rname eta now =
          ⟨.badReq "Report already claimed or closed", some r, none⟩) ∧
    (∀ (r : Report) (rid : String) (rname eta : Option String) (now : ℕ),
      r.status = .new →
        claimReportExpress (some r) rid rname eta now =
          ⟨.okReport { r with status := .claimed, claimedBy := some rid,
                              claimedByName := some (orStr rname "Rescuer"),
                              eta := orNullStr eta, lastUpdate := now },
           some { r with status := .claimed, claimedBy := some rid,
                         claimedByName := some (orStr rname "Rescuer"),
                         eta := orNullStr eta, lastUpdate := now },
           some ("report:update", .allSockets)⟩) ∧
    (∀ (d : DynReport) (rid rname : String) (now : ℕ) (c : String),
      d.claimedBy = .val c → c ≠ "" → c ≠ rid → d.status ≠ "new" →
        (claimLambda d rid rname now).store = d ∧
        (claimLambda d rid rname now).emit = none ∧
        ((claimLambda d rid rname now).resp =
            .conflictPre (d.claimedByName.orStr "Another rescuer") d.status ∨
          (claimLambda d rid rname now).resp = .conflictRace)) ∧
    (∀ (d : DynReport) (rid rname : String) (now : ℕ),
      (claimLambda d rid rname now).resp =
          .okReport { d with status := "claimed", claimedBy := .val rid,
                             claimedByName := .val rname, claimedAt := .val now,
                             lastUpdate := now } ↔
        (d.claimedBy = .absent ∨ d.claimedBy = .val rid ∨ d.status = "new")) := by
  refine ⟨?_, ?_, ?_, ?_⟩
  · intro r rid rname eta now h
    simp only [claimReportExpress]
    rw [if_pos h]
  · intro r rid rname eta now h
    simp only [claimReportExpress]
    rw [if_neg (fun hx => hx h)]
  · intro d rid rname now c hcb hce hcr hst
    have hT : d.claimedBy.truthyStr := by
      rw [hcb]
      simp [Attr.truthyStr, hce]
    have hne : d.claimedBy ≠ .val rid := by
      rw [hcb]
      intro hx
      exact hcr (by injection hx)
    by_cases hclosed : d.status = "closed"
    · have hpre : ¬ (d.claimedBy.truthyStr ∧ d.claimedBy ≠ .val rid ∧
          d.status ≠ "new" ∧ d.status ≠ "closed") := by
        rintro ⟨-, -, -, h4⟩
        exact h4 hclosed
      have hcond : ¬ (d.claimedBy = .absent ∨ d.claimedBy = .val rid ∨ d.status = "new") := by
        rintro (h | h | h)
        · rw [hcb] at h
          exact Attr.noConfusion h
        · exact hne h
        · exact hst h
      unfold claimLambda
      rw [if_neg hpre, if_neg hcond]
      exact ⟨rfl, rfl, Or.inr rfl⟩
    · have hpre : d.claimedBy.truthyStr ∧ d.claimedBy ≠ .val rid ∧
          d.status ≠ "new" ∧ d.status ≠ "closed" := ⟨hT, hne, hst, hclosed⟩
      unfold claimLambda
      rw [if_pos hpre]
      exact ⟨rfl, rfl, Or.inl rfl⟩
  · intro d rid rname now
    constructor
    · intro h
      by_cases hpre : d.claimedBy.truthyStr ∧ d.claimedBy ≠ .val rid ∧
          d.status ≠ "new" ∧ d.status ≠ "closed"
      · rw [show claimLambda d rid rname now =
            ⟨.conflictPre (d.claimedByName.orStr "Another rescuer") d.status, d, none⟩ from by
          unfold claimLambda; rw [if_pos hpre]] at h
        exact absurd h (by simp)
      · by_cases hcond : d.claimedBy = .absent ∨ d.claimedBy = .val rid ∨ d.status = "new"
        · exact hcond
        · rw [show claimLambda d rid rname now = ⟨.conflictRace, d, none⟩ from by
            unfold claimLambda; rw [if_neg hpre, if_neg hcond]] at h
          exact absurd h (by simp)
    · intro hcond
      have hpre : ¬ (d.claimedBy.truthyStr ∧ d.claimedBy ≠ .val rid ∧
          d.status ≠ "new" ∧ d.status ≠ "closed") := by
        rintro ⟨h1, h2, h3, -⟩
        rcases hcond with h | h | h
        · rw [h] at h1
          exact absurd h1 (by decide)
        · exact h2 h
        · exact h3 h
      unfold claimLambda
      rw [if_neg hpre, if_pos hcond]

/-- C1 witness: the four parts of the policy theorem at concrete
inputs — a claimed Express report rejects rescuer `B` unchanged, a new
Express report is claimed by `A` with all fields set, a Lambda item
claimed by `A` rejects `B` unchanged, and the Lambda success condition
instantiated on a fresh item. -/
theorem c1_claim_policy_witness :
    claimReportExpress (some rClaimed) "B" (some "Bob") none 200 =
      ⟨.badReq "Report already claimed or closed", some rClaimed, none⟩ ∧
    claimReportExpress (some rNew) "A" (some "Ann") (some "5 min") 150 =
      ⟨.okReport { rNew with status := .claimed, claimedBy := some "A",
                             claimedByName := some (orStr (some "Ann") "Rescuer"),
                             eta := orNullStr (some "5 min"), lastUpdate := 150 },
       some { rNew with status := .claimed, claimedBy := some "A",
                        claimedByName := some (orStr (some "Ann") "Rescuer"),
                        eta := orNullStr (some "5 min"), lastUpdate := 150 },
       some ("report:update", .allSockets)⟩ ∧
    ((claimLambda dClaimedA "B" "Bob" 160).store = dClaimedA ∧
      (claimLambda dClaimedA "B" "Bob" 160).emit = none ∧
      ((claimLambda dClaimedA "B" "Bob" 160).resp =
          .conflictPre (dClaimedA.claimedByName.orStr "Another rescuer") dClaimedA.status ∨
        (claimLambda dClaimedA "B" "Bob" 160).resp = .conflictRace)) ∧
    ((claimLambda dNew "A" "Ann" 170).resp =
        .okReport { dNew with status := "claimed", claimedBy := .val "A",
                              claimedByName := .val "Ann", claimedAt := .val 170,
                              lastUpdate := 170 } ↔
      (dNew.claimedBy = .absent ∨ dNew.claimedBy = .val "A" ∨ dNew.status = "new")) :=
  ⟨c1_claim_policy.1 rClaimed "B" (some "Bob") none 200 (by decide),
   c1_claim_policy.2.1 rNew "A" (some "Ann") (some "5 min") 150 rfl,
   c1_claim_policy.2.2.1 dClaimedA "B" "Bob" 160 "A" rfl (by decide) (by decide) (by decide),
   c1_claim_policy.2.2.2 dNew "A" "Ann" 170⟩

/-- C1 counterexample: starting from the freshly created Lambda item
`dNew`, a claim by `A`, a release (which `REMOVE`s the claimant
attributes) and a status update to `closed` produce a stored report in
status `closed` with no claimant attribute; a subsequent claim by the
different rescuer `B` then succeeds and rewrites the report — a claim
succeeded while the current status was not `new`. -/
theorem c1_counterexample :
    (createReportLambda webBody "d1" "CD34" 100).res = .created dNew ∧
    dClosedUnclaimed.status = "closed" ∧
    dClosedUnclaimed.claimedBy = .absent ∧
    (claimLambda dClosedUnclaimed "B" "Bob" 140).resp =
      .okReport (claimLambda dClosedUnclaimed "B" "Bob" 140).store ∧
    (claimLambda dClosedUnclaimed "B" "Bob" 140).store.status = "claimed" ∧
    (claimLambda dClosedUnclaimed "B" "Bob" 140).store.claimedBy = .val "B" ∧
    (claimLambda dClosedUnclaimed "B" "Bob" 140).store ≠ dClosedUnclaimed := by
  decide
